import Mathlib

/-
Verification of the Chroma vector-store backend
(src/mem0_cpp/src/vector_stores/chroma_vector_store.cpp) against its
natural-language specification.  The C++ code is shallowly embedded:
nlohmann::json values become the `Json` inductive, `std::any` metadata
values become `AnyValue`, HTTP traffic is made explicit by passing the
response as an argument and returning the list of requests issued.
-/

namespace Mem0

/-- JSON values as handled by nlohmann::json in the backend: null, strings,
integer numbers, floating numbers, booleans, arrays and objects.  An object
keeps its fields as an association list in iteration order. -/
inductive Json : Type where
  | null : Json
  | str : String → Json
  | int : Int → Json
  | float : Rat → Json
  | bool : Bool → Json
  | arr : List Json → Json
  | obj : List (String × Json) → Json

/-- Dynamic metadata values a payload map can hold, mirroring the typeid
branches of ChromaVectorStore::any_to_json: an engaged std::any holding a
string, int, long, long long, float, double, bool or const char pointer;
`empty` is a valueless std::any; `unsupported` is any other engaged type,
carrying the serialized text of the stored value. -/
inductive AnyValue : Type where
  | empty : AnyValue
  | vstring : String → AnyValue
  | vint : Int → AnyValue
  | vlong : Int → AnyValue
  | vlonglong : Int → AnyValue
  | vfloat : Rat → AnyValue
  | vdouble : Rat → AnyValue
  | vbool : Bool → AnyValue
  | vcharptr : String → AnyValue
  | unsupported : String → AnyValue

/-- ChromaVectorStore::any_to_json (chroma_vector_store.cpp lines 9-32):
scalars map to the corresponding JSON value; an empty std::any and every
unsupported type map to JSON null (the unsupported case additionally logs a
warning in the source). -/
def any_to_json : AnyValue → Json
  | .empty => .null
  | .vstring s => .str s
  | .vint n => .int n
  | .vlong n => .int n
  | .vlonglong n => .int n
  | .vfloat q => .float q
  | .vdouble q => .float q
  | .vbool b => .bool b
  | .vcharptr s => .str s
  | .unsupported _ => .null

/-- ChromaVectorStore::serialize_payload (lines 34-40): apply any_to_json to
every entry of the payload map. -/
def serialize_payload (payload : List (String × AnyValue)) : List (String × Json) :=
  payload.map (fun kv => (kv.1, any_to_json kv.2))

/-- One entry of ChromaVectorStore::deserialize_payload (lines 44-59):
JSON strings, integers, floats and booleans are kept (integers as the widest
type, long long; floats as double); null and every other shape are dropped. -/
def json_to_any : Json → Option AnyValue
  | .str s => some (.vstring s)
  | .int n => some (.vlonglong n)
  | .float q => some (.vdouble q)
  | .bool b => some (.vbool b)
  | _ => none

/-- ChromaVectorStore::deserialize_payload (lines 42-62): for a JSON object,
keep the entries whose values decode to a scalar; any non-object input
yields the empty payload. -/
def deserialize_payload : Json → List (String × AnyValue)
  | .obj fields => fields.filterMap (fun kv => (json_to_any kv.2).map (fun v => (kv.1, v)))
  | _ => []

/-- The four scalar kinds of the specification's DynamicValue, used to
compare payload values at kind level (a C++ int and the long long it decodes
back to are the same Int64 scalar). -/
inductive ScalarValue : Type where
  | s : String → ScalarValue
  | i : Int → ScalarValue
  | f : Rat → ScalarValue
  | b : Bool → ScalarValue

/-- Kind-level view of a dynamic value: which of the four scalar kinds it
is, and the scalar it carries; `none` for empty and unsupported values. -/
def scalarView : AnyValue → Option ScalarValue
  | .vstring s => some (.s s)
  | .vcharptr s => some (.s s)
  | .vint n => some (.i n)
  | .vlong n => some (.i n)
  | .vlonglong n => some (.i n)
  | .vfloat q => some (.f q)
  | .vdouble q => some (.f q)
  | .vbool b => some (.b b)
  | .empty => none
  | .unsupported _ => none

/-- A response body as the backend sees it: either text on which
nlohmann::json::parse succeeds (carrying the parsed value) or malformed text
on which parse throws. -/
inductive Body : Type where
  | jsonBody : Json → Body
  | malformed : String → Body

/-- An HTTP response delivered by httplib: a status code and a body.  A
transport failure (no response at all) is modelled as `none` at call sites. -/
structure HttpResponse : Type where
  status : Int
  body : Body

/-- One HTTP request issued through ChromaVectorStore::make_request:
method, path and (possibly null) JSON body. -/
structure ChromaRequest : Type where
  method : String
  path : String
  body : Json

/-- The mutable fields of a ChromaVectorStore instance
(include/mem0/vector_stores/chroma_vector_store.h lines 33-37). -/
structure ChromaState : Type where
  host : String
  port : Int
  collection_name : String
  embedding_dims : Option Int

/-- The failure modes of the backend.  The C++ source throws
std::runtime_error with a message; the constructors record which site threw
and the data the message carries (status code and body for protocol errors,
the raw body for codec errors).  `ub` marks the out-of-range unchecked
const operator[] accesses of nlohmann::json, which are undefined behavior
in the source; no theorem relies on reaching it. -/
inductive ChromaError : Type where
  | transport : ChromaError
  | protocol : Int → Body → ChromaError
  | codec : Body → ChromaError
  | argument : ChromaError
  | ub : ChromaError

/-- The body built by ChromaVectorStore::create_collection (lines 136-150):
always the collection name, plus an hnsw:space metadata entry when the
distance metric is one of cosine, ip, l2. -/
def createCollectionBody (name metric : String) : Json :=
  if metric = "cosine" ∨ metric = "ip" ∨ metric = "l2" then
    Json.obj [("name", .str name), ("metadata", .obj [("hnsw:space", .str metric)])]
  else
    Json.obj [("name", .str name)]

/-- ChromaVectorStore::create_collection (lines 135-173): POST the creation
body; status 201 and 409 are success, anything else (including a transport
failure) throws with the status and body.  On success the active collection
name is updated to `name`, and the recorded dimensionality to `vector_size`
when it is positive. -/
def create_collection (st : ChromaState) (name : String) (vector_size : Int)
    (metric : String) (resp : Option HttpResponse) :
    Except ChromaError ChromaState × List ChromaRequest :=
  let req : ChromaRequest := ⟨"POST", "/api/v1/collections", createCollectionBody name metric⟩
  match resp with
  | none => (.error .transport, [req])
  | some r =>
    if r.status ≠ 201 ∧ r.status ≠ 409 then
      (.error (.protocol r.status r.body), [req])
    else
      (.ok { st with
              collection_name := name,
              embedding_dims := if vector_size > 0 then some vector_size else st.embedding_dims },
       [req])

/-- ChromaVectorStore::delete_collection (lines 365-381): DELETE the
collection; status 200 and 404 are success, anything else throws with the
status and body. -/
def delete_collection (st : ChromaState) (name : String) (resp : Option HttpResponse) :
    Except ChromaError Unit × List ChromaRequest :=
  let req : ChromaRequest := ⟨"DELETE", "/api/v1/collections/" ++ name, Json.null⟩
  match resp with
  | none => (.error .transport, [req])
  | some r =>
    if r.status ≠ 200 ∧ r.status ≠ 404 then (.error (.protocol r.status r.body), [req])
    else (.ok (), [req])
  -- st is carried for uniformity; delete_collection reads no instance state

/-- ChromaVectorStore::reset_collection (lines 439-454): save the current
collection name and dimensionality (value_or(0)), attempt the delete with
every runtime error caught and logged, then unconditionally recreate under
the saved name and dimensionality with the cosine metric. -/
def reset_collection (st : ChromaState) (delResp createResp : Option HttpResponse) :
    Except ChromaError ChromaState × List ChromaRequest :=
  let current := st.collection_name
  let dims := st.embedding_dims.getD 0
  let del := delete_collection st current delResp
  let made := create_collection st current dims "cosine" createResp
  (made.1, del.2 ++ made.2)

/-- The body built by ChromaVectorStore::insert (lines 182-190):
ids, embeddings and serialized metadatas as parallel arrays. -/
def insertBody (vectors : List (List Rat)) (payloads : List (List (String × AnyValue)))
    (ids : List String) : Json :=
  Json.obj [("ids", .arr (ids.map .str)),
            ("embeddings", .arr (vectors.map (fun v => .arr (v.map .float)))),
            ("metadatas", .arr (payloads.map (fun p => .obj (serialize_payload p))))]

/-- ChromaVectorStore::insert (lines 175-200): throw an argument error
before any request when vectors is empty, ids is empty, or either payloads
or ids differs in length from vectors; otherwise POST to /add and require
status 201. -/
def insert (st : ChromaState) (vectors : List (List Rat))
    (payloads : List (List (String × AnyValue))) (ids : List String)
    (resp : Option HttpResponse) : Except ChromaError Unit × List ChromaRequest :=
  if vectors.length = 0 ∨ ids.length = 0 ∨ payloads.length ≠ vectors.length
      ∨ ids.length ≠ vectors.length then
    (.error .argument, [])
  else
    let req : ChromaRequest := ⟨"POST", "/api/v1/collections/" ++ st.collection_name ++ "/add",
                                insertBody vectors payloads ids⟩
    match resp with
    | none => (.error .transport, [req])
    | some r =>
      if r.status ≠ 201 then (.error (.protocol r.status r.body), [req]) else (.ok (), [req])

/-- ChromaVectorStore::delete_vector (lines 263-274): POST the id to
/delete and require status 200. -/
def delete_vector (st : ChromaState) (vector_id : String) (resp : Option HttpResponse) :
    Except ChromaError Unit × List ChromaRequest :=
  let req : ChromaRequest := ⟨"POST", "/api/v1/collections/" ++ st.collection_name ++ "/delete",
                              Json.obj [("ids", .arr [.str vector_id])]⟩
  match resp with
  | none => (.error .transport, [req])
  | some r =>
    if r.status ≠ 200 then (.error (.protocol r.status r.body), [req]) else (.ok (), [req])

/-- The upsert body built by ChromaVectorStore::update_vector
(lines 280-287): the id, plus embeddings and metadatas when supplied. -/
def updateBody (vector_id : String) (vec : Option (List Rat))
    (payload : Option (List (String × AnyValue))) : Json :=
  Json.obj
    ([("ids", Json.arr [.str vector_id])]
      ++ (match vec with
          | some v => [("embeddings", Json.arr [.arr (v.map .float)])]
          | none => [])
      ++ (match payload with
          | some p => [("metadatas", Json.arr [.obj (serialize_payload p)])]
          | none => []))

/-- ChromaVectorStore::update_vector (lines 276-301): when neither a vector
nor a payload is supplied, log and return without any request; otherwise
POST the upsert body and require status 200. -/
def update_vector (st : ChromaState) (vector_id : String)
    (vec : Option (List Rat)) (payload : Option (List (String × AnyValue)))
    (resp : Option HttpResponse) : Except ChromaError Unit × List ChromaRequest :=
  if vec.isNone ∧ payload.isNone then (.ok (), [])
  else
    let req : ChromaRequest := ⟨"POST", "/api/v1/collections/" ++ st.collection_name ++ "/upsert",
                                updateBody vector_id vec payload⟩
    match resp with
    | none => (.error .transport, [req])
    | some r =>
      if r.status ≠ 200 then (.error (.protocol r.status r.body), [req]) else (.ok (), [req])

/-- Field access as the source uses it: `contains` guarded operator[] on a
JSON object; on any non-object value `contains` is false. -/
def getField : Json → String → Option Json
  | .obj fields, key => fields.lookup key
  | _, _ => none

/-- nlohmann get of std::string: succeeds only on a JSON string, any other
type throws (modelled as none). -/
def asString : Json → Option String
  | .str s => some s
  | _ => none

/-- nlohmann get of double / float: succeeds on integer and floating JSON
numbers, any other type throws (modelled as none). -/
def asDouble : Json → Option Rat
  | .int n => some (n : Rat)
  | .float q => some q
  | _ => none

/-- Element-wise typed extraction, as nlohmann get of std::vector performs
it: every element must extract, otherwise the whole get throws. -/
def mapExtract (f : Json → Option α) : List Json → Option (List α)
  | [] => some []
  | x :: xs =>
    match f x with
    | none => none
    | some v =>
      match mapExtract f xs with
      | none => none
      | some vs => some (v :: vs)

/-- nlohmann get of std::vector of std::string: element-wise string
extraction over a JSON array; a non-array or a non-string element throws. -/
def asStringList : Json → Option (List String)
  | .arr xs => mapExtract asString xs
  | _ => none

/-- nlohmann get of std::vector of float: element-wise numeric extraction
over a JSON array; a non-array or a non-numeric element throws. -/
def asFloatList : Json → Option (List Rat)
  | .arr xs => mapExtract asDouble xs
  | _ => none

/-- VectorStoreData (vector_store_base.h lines 19-23): id, payload map and
embedding; payload and vector default to empty when the response omits
them. -/
structure VectorStoreData : Type where
  id : String
  payload : List (String × AnyValue)
  vector : List Rat

/-- VectorStoreSearchResult (vector_store_base.h lines 12-17):
VectorStoreData plus the raw distance reported by the service as score. -/
structure VectorStoreSearchResult : Type where
  id : String
  score : Rat
  payload : List (String × AnyValue)
  vector : List Rat

/-- A failure inside the row loop of search: a typed get threw a json type
error (rethrown as a codec error carrying the body), or an unchecked
out-of-range operator[] was hit (undefined behavior in the source). -/
inductive RowErr : Type where
  | typeErr : RowErr
  | oob : RowErr

/-- The row loop of ChromaVectorStore::search (lines 245-254): for each
entry of the inner ids list, extract the id string and the distance at the
same index (unchecked indexing: running past the distances or metadatas
list is undefined behavior), deserialize the metadata, and attach the
embedding when one is present at this index and is an array. -/
def searchRows : List Json → List Json → List Json → List Json →
    Except RowErr (List VectorStoreSearchResult)
  | [], _, _, _ => .ok []
  | _ :: _, [], _, _ => .error .oob
  | _ :: _, _ :: _, [], _ => .error .oob
  | x :: xs, d :: ds, m :: ms, embs =>
    match asString x with
    | none => .error .typeErr
    | some idv =>
      match asDouble d with
      | none => .error .typeErr
      | some score =>
        let payload := deserialize_payload m
        let vecE : Except RowErr (List Rat) :=
          match embs.head? with
          | some e =>
            match e with
            | .arr _ =>
              match asFloatList e with
              | some v => .ok v
              | none => .error .typeErr
            | _ => .ok []
          | none => .ok []
        match vecE with
        | .error er => .error er
        | .ok v =>
          match searchRows xs ds ms embs.tail with
          | .error er => .error er
          | .ok out => .ok ({ id := idv, score := score, payload := payload, vector := v } :: out)

/-- The unwrapping step of ChromaVectorStore::search (lines 239-255) once
the outer guard passed: `ids0`, `d0`, `m0` are the first elements of the
outer ids/distances/metadatas arrays and `embList` the already-unwrapped
inner embeddings array.  The loop runs ids0.size() times; a non-array ids0
of positive size, or a non-array distances/metadatas first element indexed
by the loop, hits unchecked operator[]. -/
def searchInner (ids0 d0 m0 : Json) (embList : List Json) :
    Except RowErr (List VectorStoreSearchResult) :=
  match ids0 with
  | .arr [] => .ok []
  | .arr (x :: xs) =>
    match d0, m0 with
    | .arr ds, .arr ms => searchRows (x :: xs) ds ms embList
    | _, _ => .error .oob
  | .null => .ok []
  | .obj [] => .ok []
  | _ => .error .oob

/-- Response handling of ChromaVectorStore::search (lines 225-260): a
malformed body throws a codec error carrying the body; then only when ids,
distances and metadatas are all present, arrays and nonempty are results
extracted from the first element of each — any other shape yields the empty
result list.  The embeddings outer array is optional and replaced by an
empty array when absent, null or not an array. -/
def search_parse (b : Body) : Except ChromaError (List VectorStoreSearchResult) :=
  match b with
  | .malformed s => .error (.codec (.malformed s))
  | .jsonBody j =>
    match getField j "ids", getField j "distances", getField j "metadatas" with
    | some (.arr (ids0 :: _)), some (.arr (d0 :: _)), some (.arr (m0 :: _)) =>
      let embOuter : List Json :=
        match getField j "embeddings" with
        | some (.arr es) => es
        | _ => []
      let embList : List Json :=
        match embOuter.head? with
        | some (.arr es) => es
        | _ => []
      match searchInner ids0 d0 m0 embList with
      | .ok out => .ok out
      | .error .typeErr => .error (.codec b)
      | .error .oob => .error .ub
    | _, _, _ => .ok []

/-- The query body built by ChromaVectorStore::search (lines 204-215): the
query vector wrapped as a list of one embedding, n_results, the include
list, and a where clause when nonempty filters are supplied. -/
def searchBody (vector : List Rat) (limit : Int)
    (filters : Option (List (String × AnyValue))) : Json :=
  let base := [("query_embeddings", Json.arr [.arr (vector.map .float)]),
               ("n_results", Json.int limit),
               ("include", Json.arr [.str "metadatas", .str "distances", .str "embeddings"])]
  match filters with
  | some f => if f.length = 0 then Json.obj base
              else Json.obj (base ++ [("where", Json.obj (serialize_payload f))])
  | none => Json.obj base

/-- ChromaVectorStore::search (lines 202-261): POST the query, require
status 200 (anything else, or a transport failure, throws with status and
body) and parse the response. -/
def search (st : ChromaState) (query_text : String) (vector : List Rat) (limit : Int)
    (filters : Option (List (String × AnyValue))) (resp : Option HttpResponse) :
    Except ChromaError (List VectorStoreSearchResult) × List ChromaRequest :=
  let req : ChromaRequest := ⟨"POST", "/api/v1/collections/" ++ st.collection_name ++ "/query",
                              searchBody vector limit filters⟩
  match resp with
  | none => (.error .transport, [req])
  | some r =>
    if r.status ≠ 200 then (.error (.protocol r.status r.body), [req])
    else (search_parse r.body, [req])

/-- Response handling of ChromaVectorStore::get_vector (lines 315-337): a
malformed body throws a codec error; when ids is present and an array, its
string elements are extracted (a non-string element throws); an empty ids
list falls through to the not-found result, and otherwise the first id
forms the record, with metadata taken from the first metadatas element when
it is an object and the embedding from the first embeddings element when it
is an array (a non-numeric element throws). -/
def get_vector_parse (b : Body) : Except ChromaError (Option VectorStoreData) :=
  match b with
  | .malformed s => .error (.codec (.malformed s))
  | .jsonBody j =>
    match getField j "ids" with
    | some (.arr xs) =>
      match mapExtract asString xs with
      | none => .error (.codec b)
      | some [] => .ok none
      | some (s0 :: _) =>
        let payload : List (String × AnyValue) :=
          match getField j "metadatas" with
          | some (.arr (m0 :: _)) =>
            match m0 with
            | .obj _ => deserialize_payload m0
            | _ => []
          | _ => []
        let vecE : Except ChromaError (List Rat) :=
          match getField j "embeddings" with
          | some (.arr (e0 :: _)) =>
            match e0 with
            | .arr _ =>
              match asFloatList e0 with
              | some v => .ok v
              | none => .error (.codec b)
            | _ => .ok []
          | _ => .ok []
        match vecE with
        | .error er => .error er
        | .ok v => .ok (some { id := s0, payload := payload, vector := v })
    | some _ => .ok none
    | none => .ok none

/-- ChromaVectorStore::get_vector (lines 303-338): POST the id to /get; on
a transport failure or any status other than 200 the failure is logged and
the empty option returned (no exception); on 200 the body is parsed. -/
def get_vector (st : ChromaState) (vector_id : String) (resp : Option HttpResponse) :
    Except ChromaError (Option VectorStoreData) × List ChromaRequest :=
  let req : ChromaRequest := ⟨"POST", "/api/v1/collections/" ++ st.collection_name ++ "/get",
                              Json.obj [("ids", .arr [.str vector_id]),
                                        ("include", .arr [.str "metadatas", .str "embeddings"])]⟩
  match resp with
  | none => (.ok none, [req])
  | some r =>
    if r.status ≠ 200 then (.ok none, [req])
    else (get_vector_parse r.body, [req])

/-- One element of the list_collections response (lines 353-357): the name
of a JSON object that has a string-valued name field. -/
def colName : Json → Option String
  | .obj fields =>
    match fields.lookup "name" with
    | some (.str s) => some s
    | _ => none
  | _ => none

/-- Response handling of ChromaVectorStore::list_collections
(lines 349-362): a malformed body throws a codec error; an array collects
the names of its objects with string name fields; any other shape yields an
empty list. -/
def list_collections_parse (b : Body) : Except ChromaError (List String) :=
  match b with
  | .malformed s => .error (.codec (.malformed s))
  | .jsonBody j =>
    match j with
    | .arr cols => .ok (cols.filterMap colName)
    | _ => .ok []

/-- ChromaVectorStore::list_collections (lines 340-363): GET /collections,
require status 200 (anything else throws with status and body), and parse
the response array. -/
def list_collections (st : ChromaState) (resp : Option HttpResponse) :
    Except ChromaError (List String) × List ChromaRequest :=
  let req : ChromaRequest := ⟨"GET", "/api/v1/collections", Json.null⟩
  match resp with
  | none => (.error .transport, [req])
  | some r =>
    if r.status ≠ 200 then (.error (.protocol r.status r.body), [req])
    else (list_collections_parse r.body, [req])

/-- The row loop of ChromaVectorStore::list_vectors (lines 419-431): one
record per id; metadata attached when the metadatas element at this index
is an object, embedding when the embeddings element at this index is an
array (a non-numeric element throws, carried as a codec error on `b`). -/
def listRows (b : Body) : List String → List Json → List Json →
    Except ChromaError (List VectorStoreData)
  | [], _, _ => .ok []
  | id0 :: rest, metas, embs =>
    let payload : List (String × AnyValue) :=
      match metas.head? with
      | some (.obj fields) => deserialize_payload (.obj fields)
      | _ => []
    let vecE : Except ChromaError (List Rat) :=
      match embs.head? with
      | some e =>
        match e with
        | .arr _ =>
          match asFloatList e with
          | some v => .ok v
          | none => .error (.codec b)
        | _ => .ok []
      | none => .ok []
    match vecE with
    | .error er => .error er
    | .ok v =>
      match listRows b rest metas.tail embs.tail with
      | .error er => .error er
      | .ok out => .ok ({ id := id0, payload := payload, vector := v } :: out)

/-- Response handling of ChromaVectorStore::list_vectors (lines 410-435): a
malformed body throws a codec error; when ids is present and an array its
string elements are extracted (a non-string element throws) and one record
is built per id; any other shape yields the empty list.  metadatas and
embeddings are used only when present and arrays. -/
def list_vectors_parse (b : Body) : Except ChromaError (List VectorStoreData) :=
  match b with
  | .malformed s => .error (.codec (.malformed s))
  | .jsonBody j =>
    match getField j "ids" with
    | some (.arr xs) =>
      match mapExtract asString xs with
      | none => .error (.codec b)
      | some ids_list =>
        let metas : List Json :=
          match getField j "metadatas" with
          | some (.arr ms) => ms
          | _ => []
        let embs : List Json :=
          match getField j "embeddings" with
          | some (.arr es) => es
          | _ => []
        listRows b ids_list metas embs
    | some _ => .ok []
    | none => .ok []

/-- The body built by ChromaVectorStore::list_vectors (lines 387-400): an
optional where clause for nonempty filters, an optional limit, and the
include list. -/
def listVectorsBody (filters : Option (List (String × AnyValue)))
    (limit : Option Int) : Json :=
  Json.obj
    ((match filters with
      | some f => if f.length = 0 then [] else [("where", Json.obj (serialize_payload f))]
      | none => [])
      ++ (match limit with
          | some n => [("limit", Json.int n)]
          | none => [])
      ++ [("include", Json.arr [.str "metadatas", .str "embeddings"])])

/-- ChromaVectorStore::list_vectors (lines 383-437): POST to /get, require
status 200 (anything else throws with status and body), and parse. -/
def list_vectors (st : ChromaState) (filters : Option (List (String × AnyValue)))
    (limit : Option Int) (resp : Option HttpResponse) :
    Except ChromaError (List VectorStoreData) × List ChromaRequest :=
  let req : ChromaRequest := ⟨"POST", "/api/v1/collections/" ++ st.collection_name ++ "/get",
                              listVectorsBody filters limit⟩
  match resp with
  | none => (.error .transport, [req])
  | some r =>
    if r.status ≠ 200 then (.error (.protocol r.status r.body), [req])
    else (list_vectors_parse r.body, [req])

lemma create_collection_trace (st : ChromaState) (name : String) (vector_size : Int)
    (metric : String) (resp : Option HttpResponse) :
    (create_collection st name vector_size metric resp).2
      = [⟨"POST", "/api/v1/collections", createCollectionBody name metric⟩] := by
  cases resp with
  | none => rfl
  | some r =>
    unfold create_collection
    dsimp only
    split <;> rfl

lemma delete_collection_trace (st : ChromaState) (name : String)
    (resp : Option HttpResponse) :
    (delete_collection st name resp).2
      = [⟨"DELETE", "/api/v1/collections/" ++ name, Json.null⟩] := by
  cases resp with
  | none => rfl
  | some r =>
    unfold delete_collection
    dsimp only
    split <;> rfl

/-- C1: counterexample.  The claim says a payload value of unsupported kind
is encoded as a JSON string holding its serialization; in the source
any_to_json returns JSON null for such a value (after logging a warning),
so the encoded entry is null, not the claimed string. -/
theorem c1_counterexample_unsupported_not_string :
    serialize_payload [("k", AnyValue.unsupported "[1,2]")] = [("k", Json.null)]
      ∧ serialize_payload [("k", AnyValue.unsupported "[1,2]")] ≠ [("k", Json.str "[1,2]")] := by
  refine ⟨rfl, ?_⟩
  intro h
  simp [serialize_payload, any_to_json] at h

/-- C1 (amended): for every payload entry whose value's kind is not one of
the four scalars or null, encoding the payload produces for that key a JSON
null — the data is dropped (with a logged warning), not preserved as a
serialized string. -/
theorem c1_amended_unsupported_serializes_to_null
    (p : List (String × AnyValue)) (k s : String)
    (h : (k, AnyValue.unsupported s) ∈ p) :
    (k, Json.null) ∈ serialize_payload p := by
  have hm := List.mem_map_of_mem (fun kv : String × AnyValue => (kv.1, any_to_json kv.2)) h
  simpa [serialize_payload, any_to_json] using hm

/-- C1 (amended), witness at a concrete payload. -/
theorem c1_amended_witness :
    ("k", AnyValue.unsupported "[1,2]") ∈ [("k", AnyValue.unsupported "[1,2]")]
      ∧ ("k", Json.null) ∈ serialize_payload [("k", AnyValue.unsupported "[1,2]")] :=
  ⟨List.mem_cons_self _ _,
    c1_amended_unsupported_serializes_to_null [("k", AnyValue.unsupported "[1,2]")] "k" "[1,2]"
      (List.mem_cons_self _ _)⟩

/-- C3: codec round trip.  For every payload with unique keys whose values
are all of scalar kind (string, integer, float or boolean), deserializing
the serialization yields a payload with the same keys in the same order
and, for each key, a value of the same scalar kind carrying the same
scalar. -/
lemma serialize_payload_cons (k : String) (v : AnyValue) (tl : List (String × AnyValue)) :
    serialize_payload ((k, v) :: tl) = (k, any_to_json v) :: serialize_payload tl := rfl

lemma deserialize_payload_cons (k : String) (j : Json) (tl : List (String × Json)) :
    deserialize_payload (Json.obj ((k, j) :: tl)) =
      (match json_to_any j with
       | some w => (k, w) :: deserialize_payload (Json.obj tl)
       | none => deserialize_payload (Json.obj tl)) := by
  cases hj : json_to_any j with
  | none => simp [deserialize_payload, List.filterMap_cons, hj]
  | some w => simp [deserialize_payload, List.filterMap_cons, hj]

theorem c3_codec_round_trip (p : List (String × AnyValue))
    (hkeys : (p.map Prod.fst).Nodup)
    (hscalar : ∀ kv ∈ p, (scalarView kv.2).isSome) :
    (deserialize_payload (Json.obj (serialize_payload p))).map (fun kv => (kv.1, scalarView kv.2))
      = p.map (fun kv => (kv.1, scalarView kv.2)) := by
  clear hkeys
  induction p with
  | nil => rfl
  | cons hd tl ih =>
    obtain ⟨k, v⟩ := hd
    have hv := hscalar (k, v) (List.mem_cons_self _ _)
    have ih2 := ih (fun kv hkv => hscalar kv (List.mem_cons_of_mem _ hkv))
    rw [serialize_payload_cons, deserialize_payload_cons]
    cases v <;> simp_all [any_to_json, json_to_any, scalarView]

/-- C3, witness at a concrete scalar payload. -/
theorem c3_codec_round_trip_witness :
    (([("a", AnyValue.vint 3), ("b", AnyValue.vdouble 2),
       ("c", AnyValue.vbool true), ("d", AnyValue.vstring "x")].map Prod.fst).Nodup
      ∧ (∀ kv ∈ [("a", AnyValue.vint 3), ("b", AnyValue.vdouble 2),
                 ("c", AnyValue.vbool true), ("d", AnyValue.vstring "x")],
           (scalarView kv.2).isSome))
    ∧ (deserialize_payload (Json.obj (serialize_payload
         [("a", AnyValue.vint 3), ("b", AnyValue.vdouble 2),
          ("c", AnyValue.vbool true), ("d", AnyValue.vstring "x")]))).map
            (fun kv => (kv.1, scalarView kv.2))
        = [("a", AnyValue.vint 3), ("b", AnyValue.vdouble 2),
           ("c", AnyValue.vbool true), ("d", AnyValue.vstring "x")].map
            (fun kv => (kv.1, scalarView kv.2)) := by
  refine ⟨⟨by decide, ?_⟩, ?_⟩
  · intro kv hkv
    fin_cases hkv <;> rfl
  · exact c3_codec_round_trip _ (by decide) (by intro kv hkv; fin_cases hkv <;> rfl)

/-- C4: insert argument validation.  insert raises an argument error and
issues no request exactly when the three argument lists do not all share
the same nonzero length; with equal nonzero lengths no argument error is
raised and the add request is issued. -/
theorem c4_insert_argument_validation (st : ChromaState) (vectors : List (List Rat))
    (payloads : List (List (String × AnyValue))) (ids : List String)
    (resp : Option HttpResponse) :
    (¬ (vectors.length = payloads.length ∧ vectors.length = ids.length
          ∧ 0 < vectors.length) →
        insert st vectors payloads ids resp = (.error .argument, []))
  ∧ ((vectors.length = payloads.length ∧ vectors.length = ids.length
          ∧ 0 < vectors.length) →
        (insert st vectors payloads ids resp).1 ≠ .error .argument
          ∧ (insert st vectors payloads ids resp).2
              = [⟨"POST", "/api/v1/collections/" ++ st.collection_name ++ "/add",
                  insertBody vectors payloads ids⟩]) := by
  constructor
  · intro h
    have hcond : vectors.length = 0 ∨ ids.length = 0 ∨ payloads.length ≠ vectors.length
        ∨ ids.length ≠ vectors.length := by omega
    unfold insert
    rw [if_pos hcond]
  · intro h
    have hcond : ¬ (vectors.length = 0 ∨ ids.length = 0 ∨ payloads.length ≠ vectors.length
        ∨ ids.length ≠ vectors.length) := by omega
    unfold insert
    rw [if_neg hcond]
    cases resp with
    | none => exact ⟨by simp, rfl⟩
    | some r =>
      dsimp only
      split <;> exact ⟨by simp, rfl⟩

/-- C4, witness: a length mismatch yields the argument error without a
request, and matched nonzero lengths yield no argument error. -/
theorem c4_insert_argument_validation_witness :
    (insert ⟨"localhost", 8000, "mem0", none⟩ [[1]] [] ["a"] none = (.error .argument, []))
      ∧ (insert ⟨"localhost", 8000, "mem0", none⟩ [[1]] [[]] ["a"] none).1
          ≠ .error .argument := by
  constructor
  · exact (c4_insert_argument_validation ⟨"localhost", 8000, "mem0", none⟩ [[1]] [] ["a"] none).1
      (by intro h; exact absurd h.1 (by decide))
  · exact ((c4_insert_argument_validation ⟨"localhost", 8000, "mem0", none⟩ [[1]] [[]] ["a"]
      none).2 (by refine ⟨rfl, rfl, ?_⟩; decide)).1

/-- C6: createCollection is idempotent.  A response with status 201 or 409
succeeds (so a repeat create that gets 409 still succeeds); any other
status raises a creation error carrying the status and body, and a
transport failure also raises. -/
theorem c6_create_collection_idempotent (st : ChromaState) (name : String)
    (vector_size : Int) (metric : String) :
    (∀ r : HttpResponse, r.status = 201 ∨ r.status = 409 →
        ∃ st2, (create_collection st name vector_size metric (some r)).1 = .ok st2)
  ∧ (∀ r : HttpResponse, r.status ≠ 201 → r.status ≠ 409 →
        (create_collection st name vector_size metric (some r)).1
          = .error (.protocol r.status r.body))
  ∧ (create_collection st name vector_size metric none).1 = .error .transport := by
  refine ⟨?_, ?_, rfl⟩
  · intro r hr
    have hc : ¬ (r.status ≠ 201 ∧ r.status ≠ 409) := by tauto
    refine ⟨{ st with
        collection_name := name,
        embedding_dims := if vector_size > 0 then some vector_size
                          else st.embedding_dims }, ?_⟩
    simp [create_collection, hc]
  · intro r h1 h2
    simp [create_collection, h1, h2]

/-- C6, witness: status 409 succeeds, status 500 raises a creation error
with the status and body, and a transport failure raises. -/
theorem c6_create_collection_idempotent_witness :
    (∃ st2, (create_collection ⟨"localhost", 8000, "mem0", none⟩ "mem0" 0 "cosine"
        (some ⟨409, .malformed "exists"⟩)).1 = .ok st2)
      ∧ (create_collection ⟨"localhost", 8000, "mem0", none⟩ "mem0" 0 "cosine"
          (some ⟨500, .malformed "boom"⟩)).1 = .error (.protocol 500 (.malformed "boom")) := by
  refine ⟨(c6_create_collection_idempotent _ "mem0" 0 "cosine").1 ⟨409, .malformed "exists"⟩
    (by right; rfl), ?_⟩
  exact (c6_create_collection_idempotent ⟨"localhost", 8000, "mem0", none⟩ "mem0" 0
    "cosine").2.1 ⟨500, .malformed "boom"⟩ (by decide) (by decide)

/-- C7: resetCollection deletes then recreates the active collection under
the saved name and recorded dimensionality; its outcome is exactly the
outcome of the recreate step (a delete failure never aborts it), and both
the delete request and the create request are always issued. -/
theorem c7_reset_collection_always_recreates (st : ChromaState)
    (delResp createResp : Option HttpResponse) :
    (reset_collection st delResp createResp).1
        = (create_collection st st.collection_name (st.embedding_dims.getD 0)
            "cosine" createResp).1
  ∧ (reset_collection st delResp createResp).2
        = [⟨"DELETE", "/api/v1/collections/" ++ st.collection_name, Json.null⟩,
           ⟨"POST", "/api/v1/collections", createCollectionBody st.collection_name "cosine"⟩] := by
  refine ⟨rfl, ?_⟩
  show (delete_collection st st.collection_name delResp).2
      ++ (create_collection st st.collection_name (st.embedding_dims.getD 0)
            "cosine" createResp).2 = _
  rw [delete_collection_trace, create_collection_trace]
  rfl

/-- C10: after a successful create_collection the instance's active
collection name is the new name; its recorded dimensionality is the given
vector size when positive and unchanged when zero; host and port are
unchanged. -/
theorem c10_create_collection_state_update (st : ChromaState) (name : String)
    (vector_size : Int) (metric : String) (r : HttpResponse) (st2 : ChromaState)
    (h : (create_collection st name vector_size metric (some r)).1 = .ok st2) :
    st2.collection_name = name
  ∧ (0 < vector_size → st2.embedding_dims = some vector_size)
  ∧ (vector_size = 0 → st2.embedding_dims = st.embedding_dims)
  ∧ st2.host = st.host ∧ st2.port = st.port := by
  unfold create_collection at h
  dsimp only at h
  by_cases hc : r.status ≠ 201 ∧ r.status ≠ 409
  · rw [if_pos hc] at h
    exact absurd h (by simp)
  · rw [if_neg hc] at h
    have h2 : ({ st with
        collection_name := name,
        embedding_dims := if vector_size > 0 then some vector_size else st.embedding_dims }
          : ChromaState) = st2 := by
      simpa using h
    subst h2
    refine ⟨rfl, ?_, ?_, rfl, rfl⟩
    · intro hv
      simp [hv]
    · intro hv
      simp [hv]

/-- C10, witness: a 201 creation retargets the collection name and records
the positive dimensionality while host and port stay fixed. -/
theorem c10_create_collection_state_update_witness :
    (⟨"localhost", 8000, "fresh", some 3⟩ : ChromaState).collection_name = "fresh"
      ∧ (0 < (3 : Int) →
          (⟨"localhost", 8000, "fresh", some 3⟩ : ChromaState).embedding_dims = some 3)
      ∧ ((3 : Int) = 0 →
          (⟨"localhost", 8000, "fresh", some 3⟩ : ChromaState).embedding_dims
            = (⟨"localhost", 8000, "mem0", none⟩ : ChromaState).embedding_dims)
      ∧ (⟨"localhost", 8000, "fresh", some 3⟩ : ChromaState).host
          = (⟨"localhost", 8000, "mem0", none⟩ : ChromaState).host
      ∧ (⟨"localhost", 8000, "fresh", some 3⟩ : ChromaState).port
          = (⟨"localhost", 8000, "mem0", none⟩ : ChromaState).port :=
  c10_create_collection_state_update ⟨"localhost", 8000, "mem0", none⟩ "fresh" 3 "cosine"
    ⟨201, .malformed "created"⟩ ⟨"localhost", 8000, "fresh", some 3⟩ rfl

/-- C2: counterexample.  The claim says every operation, getVector
included, raises a protocol error on a status outside its accepted set;
get_vector on a 500 response instead logs the failure and returns the
empty option — a normal return value. -/
theorem c2_counterexample_get_vector_swallows_500 :
    (get_vector ⟨"localhost", 8000, "mem0", none⟩ "v1"
        (some ⟨500, .malformed "boom"⟩)).1 = .ok none := rfl

/-- C2 (amended): every contract operation except getVector raises a
protocol error carrying the HTTP status and the response body verbatim when
the status is outside its accepted set; getVector instead logs the failure
and returns the empty option. -/
theorem c2_amended_protocol_errors_surfaced :
    (∀ (st : ChromaState) (name metric : String) (vs : Int) (r : HttpResponse),
        r.status ≠ 201 → r.status ≠ 409 →
        (create_collection st name vs metric (some r)).1 = .error (.protocol r.status r.body))
  ∧ (∀ (st : ChromaState) (v : List (List Rat)) (p : List (List (String × AnyValue)))
        (i : List String) (r : HttpResponse),
        v.length = p.length → v.length = i.length → 0 < v.length → r.status ≠ 201 →
        (insert st v p i (some r)).1 = .error (.protocol r.status r.body))
  ∧ (∀ (st : ChromaState) (qt : String) (qv : List Rat) (limit : Int)
        (filters : Option (List (String × AnyValue))) (r : HttpResponse),
        r.status ≠ 200 →
        (search st qt qv limit filters (some r)).1 = .error (.protocol r.status r.body))
  ∧ (∀ (st : ChromaState) (vid : String) (r : HttpResponse), r.status ≠ 200 →
        (delete_vector st vid (some r)).1 = .error (.protocol r.status r.body))
  ∧ (∀ (st : ChromaState) (vid : String) (vec : Option (List Rat))
        (payload : Option (List (String × AnyValue))) (r : HttpResponse),
        vec.isSome ∨ payload.isSome → r.status ≠ 200 →
        (update_vector st vid vec payload (some r)).1 = .error (.protocol r.status r.body))
  ∧ (∀ (st : ChromaState) (r : HttpResponse), r.status ≠ 200 →
        (list_collections st (some r)).1 = .error (.protocol r.status r.body))
  ∧ (∀ (st : ChromaState) (name : String) (r : HttpResponse),
        r.status ≠ 200 → r.status ≠ 404 →
        (delete_collection st name (some r)).1 = .error (.protocol r.status r.body))
  ∧ (∀ (st : ChromaState) (filters : Option (List (String × AnyValue)))
        (limit : Option Int) (r : HttpResponse), r.status ≠ 200 →
        (list_vectors st filters limit (some r)).1 = .error (.protocol r.status r.body))
  ∧ (∀ (st : ChromaState) (vid : String) (r : HttpResponse), r.status ≠ 200 →
        (get_vector st vid (some r)).1 = .ok none) := by
  refine ⟨?_, ?_, ?_, ?_, ?_, ?_, ?_, ?_, ?_⟩
  · intro st name metric vs r h1 h2
    simp [create_collection, h1, h2]
  · intro st v p i r hvp hvi hpos hs
    have hcond : ¬ (v.length = 0 ∨ i.length = 0 ∨ p.length ≠ v.length
        ∨ i.length ≠ v.length) := by omega
    unfold insert
    rw [if_neg hcond]
    simp [hs]
  · intro st qt qv limit filters r hs
    simp [search, hs]
  · intro st vid r hs
    simp [delete_vector, hs]
  · intro st vid vec payload r hsome hs
    have hcond : ¬ (vec.isNone ∧ payload.isNone) := by
      rcases hsome with h | h <;> simp [Option.isNone_iff_eq_none] at * <;>
        cases vec <;> cases payload <;> simp_all
    unfold update_vector
    rw [if_neg hcond]
    simp [hs]
  · intro st r hs
    simp [list_collections, hs]
  · intro st name r h1 h2
    simp [delete_collection, h1, h2]
  · intro st filters limit r hs
    simp [list_vectors, hs]
  · intro st vid r hs
    simp [get_vector, hs]

/-- C2 (amended), witness: every operation at a concrete 500 response, with
the non-getVector operations raising the protocol error and getVector
returning the empty option. -/
theorem c2_amended_witness :
    (create_collection ⟨"localhost", 8000, "mem0", none⟩ "c" 0 "cosine"
        (some ⟨500, .malformed "b"⟩)).1 = .error (.protocol 500 (.malformed "b"))
  ∧ (insert ⟨"localhost", 8000, "mem0", none⟩ [[1]] [[]] ["a"]
        (some ⟨500, .malformed "b"⟩)).1 = .error (.protocol 500 (.malformed "b"))
  ∧ (search ⟨"localhost", 8000, "mem0", none⟩ "" [] 5 none
        (some ⟨500, .malformed "b"⟩)).1 = .error (.protocol 500 (.malformed "b"))
  ∧ (delete_vector ⟨"localhost", 8000, "mem0", none⟩ "v"
        (some ⟨500, .malformed "b"⟩)).1 = .error (.protocol 500 (.malformed "b"))
  ∧ (update_vector ⟨"localhost", 8000, "mem0", none⟩ "v" (some [1]) none
        (some ⟨500, .malformed "b"⟩)).1 = .error (.protocol 500 (.malformed "b"))
  ∧ (list_collections ⟨"localhost", 8000, "mem0", none⟩
        (some ⟨500, .malformed "b"⟩)).1 = .error (.protocol 500 (.malformed "b"))
  ∧ (delete_collection ⟨"localhost", 8000, "mem0", none⟩ "c"
        (some ⟨500, .malformed "b"⟩)).1 = .error (.protocol 500 (.malformed "b"))
  ∧ (list_vectors ⟨"localhost", 8000, "mem0", none⟩ none none
        (some ⟨500, .malformed "b"⟩)).1 = .error (.protocol 500 (.malformed "b"))
  ∧ (get_vector ⟨"localhost", 8000, "mem0", none⟩ "v"
        (some ⟨500, .malformed "b"⟩)).1 = .ok none := by
  obtain ⟨h1, h2, h3, h4, h5, h6, h7, h8, h9⟩ := c2_amended_protocol_errors_surfaced
  exact ⟨h1 _ "c" "cosine" 0 ⟨500, .malformed "b"⟩ (by decide) (by decide),
    h2 _ [[1]] [[]] ["a"] ⟨500, .malformed "b"⟩ rfl rfl (by decide) (by decide),
    h3 _ "" [] 5 none ⟨500, .malformed "b"⟩ (by decide),
    h4 _ "v" ⟨500, .malformed "b"⟩ (by decide),
    h5 _ "v" (some [1]) none ⟨500, .malformed "b"⟩ (Or.inl rfl) (by decide),
    h6 _ ⟨500, .malformed "b"⟩ (by decide),
    h7 _ "c" ⟨500, .malformed "b"⟩ (by decide) (by decide),
    h8 _ none none ⟨500, .malformed "b"⟩ (by decide),
    h9 _ "v" ⟨500, .malformed "b"⟩ (by decide)⟩

/-- C9: counterexample.  The claim says any response body that is not of
the expected JSON shape raises a CodecError; a valid JSON body whose ids
field is not an array fails the shape guard of search and is silently
converted into the normal empty result. -/
theorem c9_counterexample_shape_mismatch_empty :
    (search ⟨"localhost", 8000, "mem0", none⟩ "" [] 5 none
        (some ⟨200, .jsonBody (.obj [("ids", .str "oops")])⟩)).1 = .ok [] := rfl

/-- C9 (amended): a response body that is not syntactically parseable as
JSON always raises a CodecError carrying the raw body in search, getVector,
listCollections and listVectors, and so does a typed extraction hitting an
element of the wrong kind inside the expected arrays; but a well-formed
JSON body whose top-level fields are missing or not arrays yields a normal
empty result instead. -/
theorem c9_amended_malformed_body_codec_error :
    (∀ (st : ChromaState) (qt : String) (qv : List Rat) (limit : Int)
        (filters : Option (List (String × AnyValue))) (s : String),
        (search st qt qv limit filters (some ⟨200, .malformed s⟩)).1
          = .error (.codec (.malformed s)))
  ∧ (∀ (st : ChromaState) (vid : String) (s : String),
        (get_vector st vid (some ⟨200, .malformed s⟩)).1 = .error (.codec (.malformed s)))
  ∧ (∀ (st : ChromaState) (s : String),
        (list_collections st (some ⟨200, .malformed s⟩)).1 = .error (.codec (.malformed s)))
  ∧ (∀ (st : ChromaState) (filters : Option (List (String × AnyValue)))
        (limit : Option Int) (s : String),
        (list_vectors st filters limit (some ⟨200, .malformed s⟩)).1
          = .error (.codec (.malformed s)))
  ∧ (search ⟨"localhost", 8000, "mem0", none⟩ "" [] 5 none
        (some ⟨200, .jsonBody (.obj [("ids", Json.arr [Json.arr [Json.int 7]]),
                                     ("distances", Json.arr [Json.arr [Json.float 0]]),
                                     ("metadatas", Json.arr [Json.arr [Json.obj []]])])⟩)).1
      = .error (.codec (.jsonBody (.obj [("ids", Json.arr [Json.arr [Json.int 7]]),
                                     ("distances", Json.arr [Json.arr [Json.float 0]]),
                                     ("metadatas", Json.arr [Json.arr [Json.obj []]])]))) := by
  refine ⟨?_, ?_, ?_, ?_, rfl⟩
  · intro st qt qv limit filters s
    simp [search, search_parse]
  · intro st vid s
    simp [get_vector, get_vector_parse]
  · intro st s
    simp [list_collections, list_collections_parse]
  · intro st filters limit s
    simp [list_vectors, list_vectors_parse]

lemma mapExtract_str (l : List String) : mapExtract asString (l.map Json.str) = some l := by
  induction l with
  | nil => rfl
  | cons a as ih => simp [mapExtract, asString, ih]

lemma mapExtract_float (l : List Rat) : mapExtract asDouble (l.map Json.float) = some l := by
  induction l with
  | nil => rfl
  | cons a as ih => simp [mapExtract, asDouble, ih]

/-- A well-typed embedding as it appears in a response: a JSON array of
numbers. -/
def embJson (v : List Rat) : Json := Json.arr (v.map .float)

/-- On well-typed parallel rows the search loop succeeds and returns one
result per id, carrying the ids and the distances positionally. -/
lemma searchRows_floats :
    ∀ (ids : List String) (dists : List Rat) (metas : List Json) (embs : List (List Rat)),
      dists.length = ids.length → metas.length = ids.length →
      ∃ out, searchRows (ids.map Json.str) (dists.map Json.float) metas (embs.map embJson)
          = .ok out
        ∧ out.map (fun x => x.id) = ids ∧ out.map (fun x => x.score) = dists := by
  intro ids
  induction ids with
  | nil =>
    intro dists metas embs h1 h2
    have hd : dists = [] := List.eq_nil_of_length_eq_zero h1
    subst hd
    exact ⟨[], rfl, rfl, rfl⟩
  | cons a as ih =>
    intro dists metas embs h1 h2
    cases dists with
    | nil => exact absurd h1 (by simp)
    | cons q qs =>
      cases metas with
      | nil => exact absurd h2 (by simp)
      | cons m ms =>
        have h1' : qs.length = as.length := by simpa using h1
        have h2' : ms.length = as.length := by simpa using h2
        cases embs with
        | nil =>
          obtain ⟨out, hout, hid, hsc⟩ := ih qs ms [] h1' h2'
          refine ⟨⟨a, q, deserialize_payload m, []⟩ :: out, ?_, ?_, ?_⟩
          · simp only [List.map_cons, List.map_nil] at hout ⊢
            simp [searchRows, asString, asDouble, hout]
          · simp [hid]
          · simp [hsc]
        | cons e es =>
          obtain ⟨out, hout, hid, hsc⟩ := ih qs ms es h1' h2'
          refine ⟨⟨a, q, deserialize_payload m, e⟩ :: out, ?_, ?_, ?_⟩
          · simp only [List.map_cons] at hout ⊢
            simp [searchRows, asString, asDouble, embJson, asFloatList,
                  mapExtract_float, hout]
          · simp [hid]
          · simp [hsc]

/-- The shape of a Chroma query response for a single query vector: one
outer array per included field whose first element holds this query's
results (any further outer elements are junk the code must ignore). -/
def queryResponseJson (ids : List String) (dists : List Rat) (metas : List Json)
    (embs : List (List Rat)) (tIds tDists tMetas tEmbs : List Json) : Json :=
  Json.obj [("ids", .arr (.arr (ids.map .str) :: tIds)),
            ("distances", .arr (.arr (dists.map .float) :: tDists)),
            ("metadatas", .arr (.arr metas :: tMetas)),
            ("embeddings", .arr (.arr (embs.map embJson) :: tEmbs))]

/-- C5: for every query and well-formed 200 query response — parallel inner
arrays whose length respects n_results and whose distances come back in
ascending order, as the Chroma protocol returns them — search unwraps one
nesting level (taking only the first element of each outer array), succeeds,
and returns at most `limit` results in ascending score order, scores being
the raw distances of the response. -/
lemma search_200 (st : ChromaState) (qt : String) (qv : List Rat) (limit : Int)
    (filters : Option (List (String × AnyValue))) (b : Body) :
    (search st qt qv limit filters (some ⟨200, b⟩)).1 = search_parse b := by
  simp [search]

/-- Reduction of search_parse on the well-formed query response shape: the
outer guard passes and the first outer elements are handed to the row
loop. -/
lemma search_parse_query (ids : List String) (dists : List Rat) (metas : List Json)
    (embs : List (List Rat)) (tIds tDists tMetas tEmbs : List Json) :
    search_parse (.jsonBody (queryResponseJson ids dists metas embs tIds tDists tMetas tEmbs))
      = match searchInner (.arr (ids.map .str)) (.arr (dists.map .float)) (.arr metas)
            (embs.map embJson) with
        | .ok out => .ok out
        | .error .typeErr =>
          .error (.codec (.jsonBody
            (queryResponseJson ids dists metas embs tIds tDists tMetas tEmbs)))
        | .error .oob => .error .ub := rfl

theorem c5_search_wellformed_response (st : ChromaState) (qt : String) (qv : List Rat)
    (limit : Int) (filters : Option (List (String × AnyValue)))
    (ids : List String) (dists : List Rat) (metas : List Json) (embs : List (List Rat))
    (tIds tDists tMetas tEmbs : List Json)
    (hlen1 : dists.length = ids.length) (hlen2 : metas.length = ids.length)
    (hlimit : (ids.length : Int) ≤ limit)
    (hsorted : List.Sorted (· ≤ ·) dists) :
    ∃ out,
      (search st qt qv limit filters
          (some ⟨200, .jsonBody
            (queryResponseJson ids dists metas embs tIds tDists tMetas tEmbs)⟩)).1
        = .ok out
      ∧ out.map (fun x => x.id) = ids
      ∧ out.map (fun x => x.score) = dists
      ∧ (out.length : Int) ≤ limit
      ∧ List.Sorted (· ≤ ·) (out.map (fun x => x.score)) := by
  cases ids with
  | nil =>
    have hd : dists = [] := List.eq_nil_of_length_eq_zero hlen1
    subst hd
    refine ⟨[], ?_, rfl, rfl, by simpa using hlimit, by simp⟩
    rw [search_200, search_parse_query]
    rfl
  | cons a as =>
    obtain ⟨out, hout, hid, hsc⟩ := searchRows_floats (a :: as) dists metas embs hlen1 hlen2
    have hlength : out.length = (a :: as).length := by
      simpa using congrArg List.length hid
    refine ⟨out, ?_, hid, hsc, ?_, ?_⟩
    · rw [search_200, search_parse_query]
      have hred : searchInner (Json.arr ((a :: as).map Json.str))
            (Json.arr (dists.map Json.float)) (Json.arr metas) (embs.map embJson)
          = searchRows ((a :: as).map Json.str) (dists.map Json.float) metas
              (embs.map embJson) := rfl
      rw [hred, hout]
    · rw [hlength]
      exact_mod_cast hlimit
    · rw [hsc]
      exact hsorted

/-- C5, witness at a concrete two-row response. -/
theorem c5_search_wellformed_response_witness :
    ([(0 : Rat), 1].length = ["x", "y"].length)
  ∧ ([Json.obj [], Json.obj []].length = ["x", "y"].length)
  ∧ ((["x", "y"].length : Int) ≤ 5)
  ∧ List.Sorted (· ≤ ·) [(0 : Rat), 1]
  ∧ (∃ out,
      (search ⟨"localhost", 8000, "mem0", none⟩ "" [] 5 none
          (some ⟨200, .jsonBody (queryResponseJson ["x", "y"] [0, 1]
            [Json.obj [], Json.obj []] [] [] [] [] [])⟩)).1
        = .ok out
      ∧ out.map (fun x => x.id) = ["x", "y"]
      ∧ out.map (fun x => x.score) = [0, 1]
      ∧ (out.length : Int) ≤ 5
      ∧ List.Sorted (· ≤ ·) (out.map (fun x => x.score))) := by
  have hs : List.Sorted (· ≤ ·) [(0 : Rat), 1] := by
    simp [List.sorted_cons]
  exact ⟨rfl, rfl, by decide, hs,
    c5_search_wellformed_response ⟨"localhost", 8000, "mem0", none⟩ "" [] 5 none
      ["x", "y"] [0, 1] [Json.obj [], Json.obj []] [] [] [] [] [] rfl rfl (by decide) hs⟩

/-- The shape of a Chroma /get response for a lookup by id: flat ids,
metadatas and embeddings arrays. -/
def getResponseJson (ids : List String) (metas : List Json) (embs : List Json) : Json :=
  Json.obj [("ids", .arr (ids.map .str)), ("metadatas", .arr metas),
            ("embeddings", .arr embs)]

/-- C8: on a 200 response whose ids result array is empty, get_vector
returns the empty option (not-found is an absent value, not a thrown
error); on a 200 response with a non-empty ids array it returns a record
whose id is the first element of that array. -/
lemma get_vector_200 (st : ChromaState) (vid : String) (b : Body) :
    (get_vector st vid (some ⟨200, b⟩)).1 = get_vector_parse b := by
  simp [get_vector]

/-- Reduction of get_vector_parse on the /get response shape: the ids field
is found and its string elements extracted. -/
lemma get_vector_parse_get (ids : List String) (metas : List Json) (embs : List Json) :
    get_vector_parse (.jsonBody (getResponseJson ids metas embs))
      = (match mapExtract asString (ids.map .str) with
         | none => .error (.codec (.jsonBody (getResponseJson ids metas embs)))
         | some [] => .ok none
         | some (s0 :: _) =>
           let payload : List (String × AnyValue) :=
             match metas.head? with
             | some m =>
               match m with
               | .obj _ => deserialize_payload m
               | _ => []
             | _ => []
           let vecE : Except ChromaError (List Rat) :=
             match embs.head? with
             | some e0 =>
               match e0 with
               | .arr _ =>
                 match asFloatList e0 with
                 | some v => .ok v
                 | none => .error (.codec (.jsonBody (getResponseJson ids metas embs)))
               | _ => .ok []
             | _ => .ok []
           match vecE with
           | .error er => .error er
           | .ok v => .ok (some { id := s0, payload := payload, vector := v })) := by
  cases metas <;> cases embs <;> rfl

/-- A well-typed metadata entry as it appears in a response: a JSON
object. -/
def objJson (fields : List (String × Json)) : Json := Json.obj fields

theorem c8_get_vector_not_found_option (st : ChromaState) (vid : String)
    (metas : List (List (String × Json))) (embs : List (List Rat))
    (s0 : String) (rest : List String) :
    ((get_vector st vid
        (some ⟨200, .jsonBody
          (getResponseJson [] (metas.map objJson) (embs.map embJson))⟩)).1
      = .ok none)
  ∧ (∃ d, (get_vector st vid
        (some ⟨200, .jsonBody
          (getResponseJson (s0 :: rest) (metas.map objJson) (embs.map embJson))⟩)).1
          = .ok (some d) ∧ d.id = s0) := by
  constructor
  · rw [get_vector_200, get_vector_parse_get]
    rfl
  · rw [get_vector_200, get_vector_parse_get, mapExtract_str]
    cases embs with
    | nil =>
      cases metas with
      | nil => exact ⟨⟨s0, [], []⟩, rfl, rfl⟩
      | cons f fs => exact ⟨⟨s0, deserialize_payload (.obj f), []⟩, rfl, rfl⟩
    | cons e es =>
      cases metas with
      | nil =>
        refine ⟨⟨s0, [], e⟩, ?_, rfl⟩
        simp only [List.map_cons, List.map_nil, List.head?_cons, objJson, embJson,
                   asFloatList, mapExtract_float]
        rfl
      | cons f fs =>
        refine ⟨⟨s0, deserialize_payload (.obj f), e⟩, ?_, rfl⟩
        simp only [List.map_cons, List.head?_cons, objJson, embJson,
                   asFloatList, mapExtract_float]

end Mem0
